import Mathlib

-- Verification of the stress-detection prediction core (src/app.py).
-- The `predict` route is embedded as pure Lean functions: JSON numbers are
-- rationals extended with IEEE special values, exceptions are `Except`
-- errors, and the process-global scaler / label-encoder artifacts are
-- explicit parameters.

namespace StressDetection

/-- Modelled floating-point value: a finite rational, an infinity, or NaN.
Machine floats are embedded as exact rationals; the claims under study
concern orderings and data flow, not rounding. -/
inductive FVal where
  | fin : ℚ → FVal
  | inf : FVal
  | ninf : FVal
  | nan : FVal
deriving DecidableEq

/-- IEEE-style strict `<` on modelled floats: any comparison involving NaN
is false; `-inf` is below every finite value and `+inf`; `+inf` is below
nothing. -/
def FVal.flt : FVal → FVal → Bool
  | .nan, _ => false
  | _, .nan => false
  | .fin a, .fin b => decide (a < b)
  | .fin _, .inf => true
  | .fin _, .ninf => false
  | .inf, _ => false
  | .ninf, .ninf => false
  | .ninf, _ => true

/-- IEEE-style strict `>` on modelled floats, defined by flipping `flt`
(as in IEEE, `a > b` iff `b < a`; NaN comparisons stay false). -/
def FVal.fgt (a b : FVal) : Bool := FVal.flt b a

/-- A JSON value as it can appear in the input record: a number, or any
non-numeric value (collapsed to a string tag — the pipeline only ever
distinguishes numeric from non-numeric). -/
inductive JVal where
  | num : FVal → JVal
  | str : String → JVal
deriving DecidableEq

/-- Numeric reading of a JSON value; `none` on non-numeric values, where
`scaler.transform` would raise. -/
def JVal.toNum? : JVal → Option FVal
  | .num v => some v
  | .str _ => none

/-- An input record: a JSON object, i.e. an association list from keys to
values (lookup finds the first binding, matching dict semantics). -/
abbrev Record := List (String × JVal)

/-- The error responses `predict` can return, one constructor per `return
jsonify({'error': ...})` site in src/app.py:
`modelLoad` = line 110 (load_models failed, HTTP 500);
`fetchFailed` = line 117 ('Failed to fetch data from Firebase', 500);
`noData` = line 124 ('No data provided', 400);
`missingFeatures` = line 130 ('Missing features: [...]', 400);
`predictionError` = line 215, the catch-all `except Exception`
('Prediction error: ...', 500). -/
inductive PredictError where
  | modelLoad : String → PredictError
  | fetchFailed : PredictError
  | noData : PredictError
  | missingFeatures : List String → PredictError
  | predictionError : String → PredictError
deriving DecidableEq

/-- The four error kinds of the specification's taxonomy (§7). -/
inductive SpecErrorKind where
  | validationError
  | modelUnavailableError
  | unknownLabelError
  | dataSourceError
deriving DecidableEq

/-- Map from the code's concrete error responses to the spec taxonomy:
missing features and an empty caller payload are caller-input validation
failures; a failed model load means the model is unavailable; a failed or
empty external fetch is a data-source failure. The generic catch-all
('Prediction error: ...') corresponds to no kind in the taxonomy. -/
def error_kind : PredictError → Option SpecErrorKind
  | .missingFeatures _ => some .validationError
  | .noData => some .validationError
  | .modelLoad _ => some .modelUnavailableError
  | .fetchFailed => some .dataSourceError
  | .predictionError _ => none

/-- Whether an error is the generic catch-all of line 215. -/
def is_catch_all : PredictError → Bool
  | .predictionError _ => true
  | _ => false

/-- Modelled from the spec: the frozen `scaler.pkl` artifact (§4.2) is a
per-dimension mean and scale, 5 of each. -/
structure ScalerParams where
  mean : Fin 5 → ℚ
  scale : Fin 5 → ℚ

/-- Modelled from the spec: one dimension of `scaler.transform` (§4.2),
`scaled[i] = (raw[i] - mean[i]) / scale[i]`; non-finite values propagate
unchanged (scales are positive in a fitted StandardScaler). -/
def scaleOne (m s : ℚ) : FVal → FVal
  | .fin q => .fin ((q - m) / s)
  | v => v

/-- Modelled from the spec: `scaler.transform` (§4.2) applied to the
5-dimensional row, dimension-wise affine. -/
def scaler_transform (p : ScalerParams) (v : Fin 5 → FVal) : Fin 5 → FVal :=
  fun i => scaleOne (p.mean i) (p.scale i) (v i)

/-- The required feature names (src/app.py line 127). -/
def required_features : List String := ["psd_theta", "psd_beta", "hrv"]

/-- The missing-feature list (line 128): required features absent from the
record. -/
def missing_features (data : Record) : List String :=
  required_features.filter (fun f => (data.lookup f).isNone)

/-- The 5-column input row (lines 134-136): positions 0,2,4 carry
psd_theta, psd_beta, hrv verbatim; positions 1,3 are the constant 0.0
placeholders for the removed psd_alpha and EDA features. -/
def input_row (psd_theta psd_beta hrv : JVal) : Fin 5 → JVal :=
  fun i => match i with
    | 0 => psd_theta
    | 1 => .num (.fin 0)
    | 2 => psd_beta
    | 3 => .num (.fin 0)
    | 4 => hrv

/-- Whether every cell of the row is numeric (pandas/sklearn accept the
row and `scaler.transform` succeeds exactly in this case). -/
def all_numeric (row : Fin 5 → JVal) : Bool :=
  decide (∀ i, ((row i).toNum?).isSome = true)

/-- The `scaler.transform` call of line 139 as executed under the
enclosing `try`: on a non-numeric cell the library raises, which the
catch-all of line 215 turns into a generic 'Prediction error' response;
otherwise the affine transform is applied. -/
def transform_or_raise (p : ScalerParams) (row : Fin 5 → JVal) :
    Except PredictError (Fin 5 → FVal) :=
  if all_numeric row then
    .ok (scaler_transform p (fun i => ((row i).toNum?).getD .nan))
  else
    .error (.predictionError "could not convert string to float")

/-- The rule-based classifier (lines 151-158): an ordered threshold
cascade on scaled indices 4 (HRV), 2 (psd_beta) and 0 (psd_theta),
first match wins, default 0. -/
def classify (scaled : Fin 5 → FVal) : Nat :=
  if (scaled 4).flt (.fin (-1)) then 2
  else if (scaled 2).fgt (.fin (3 / 2)) then 3
  else if (scaled 0).fgt (.fin 1) then 1
  else 0

/-- The fixed code→name table of lines 174-179. -/
def status_mapping : Nat → Option String
  | 0 => some "anxious"
  | 1 => some "normal"
  | 2 => some "ptsd"
  | 3 => some "stressed"
  | _ => none

/-- The label resolution of lines 161-185. `inverse` models the external
label encoder's `inverse_transform` (`none` = it raised) and `classes`
its `classes_` array — both external pickled artifacts, passed as
parameters. The encoder attempt with its fallback (lines 161-169) is
computed first, then lines 182-185 overwrite the result from the fixed
table unconditionally, so the attempt is dead. -/
def resolve_label (inverse : Nat → Option String) (classes : List String)
    (prediction : Nat) : String :=
  let _predicted_status :=
    match inverse prediction with
    | some s => s
    | none =>
      match classes.get? prediction with
      | some s => s
      | none => "unknown"
  match status_mapping prediction with
  | some s => s
  | none => "unknown"

/-- Label resolution as a fallible step: the resolver section of `predict`
sits inside the route's `try`, but none of its own operations can raise
(the encoder attempt is guarded by a local try/except, and the dict
lookup of lines 182-185 cannot fail), so the result is always a success. -/
def resolve_label_result (inverse : Nat → Option String)
    (classes : List String) (code : Nat) : Except PredictError String :=
  .ok (resolve_label inverse classes code)

/-- The four (code, name) pairs iterated by the confidence loop
(`status_mapping.items()`, lines 189-193). -/
def status_labels : List (Nat × String) :=
  [(0, "anxious"), (1, "normal"), (2, "ptsd"), (3, "stressed")]

/-- The confidence synthesizer (lines 188-193): the predicted label gets
0.4, every other label gets 0.2 / (len(status_mapping) - 1). -/
def confidence_scores (prediction : Nat) : List (String × ℚ) :=
  status_labels.map (fun p =>
    (p.2, if p.1 = prediction then 2 / 5
          else (1 / 5) / ((status_labels.length : ℚ) - 1)))

/-- HTTP method of the request (the route accepts POST and GET). -/
inductive Method where
  | GET
  | POST
deriving DecidableEq

/-- The parts of the incoming request that `predict` consults: the method,
whether the body is JSON (`request.is_json`), and the parsed body
(`request.get_json()`, `none` when absent). -/
structure Request where
  method : Method
  is_json : Bool
  body : Option Record

/-- The data-source selection of lines 113-125: GET requests and non-JSON
POSTs read the Firebase 'latest' snapshot (`firebase_latest`, `none` when
the fetch failed or 'latest' was absent; an empty record is falsy and also
rejected); JSON POSTs read the request body (an absent or empty body is
falsy, giving 'No data provided'). Returns the record and `data_source`. -/
def select_data (req : Request) (firebase_latest : Option Record) :
    Except PredictError (Record × String) :=
  if req.method = Method.GET ∨ req.is_json = false then
    match firebase_latest with
    | none => .error .fetchFailed
    | some d => if d.isEmpty then .error .fetchFailed else .ok (d, "firebase")
  else
    match req.body with
    | none => .error .noData
    | some d => if d.isEmpty then .error .noData else .ok (d, "request_body")

/-- The lazy model-load guard of lines 107-110: if the process-global
scaler is already loaded it is used; otherwise `load_models` runs
(`load_result`, an external filesystem effect passed as a parameter) and
its failure message becomes the error response. -/
def get_scaler (scaler : Option ScalerParams)
    (load_result : Except String ScalerParams) :
    Except PredictError ScalerParams :=
  match scaler with
  | some p => .ok p
  | none =>
    match load_result with
    | .ok p => .ok p
    | .error msg => .error (.modelLoad msg)

/-- The record-dependent part of the response body of lines 201-212
(prediction, confidence_scores, input_features echo, scaled_features). -/
structure CoreOutput where
  prediction : String
  confidence : List (String × ℚ)
  input_features : List (String × JVal)
  scaled_features : List FVal
deriving DecidableEq

/-- The core pipeline of lines 127-212, run on the selected record:
validate the three required features, build the 5-column row, scale it,
classify, resolve the label, synthesize confidences, assemble the
output. -/
def predict_core (p : ScalerParams) (inverse : Nat → Option String)
    (classes : List String) (data : Record) :
    Except PredictError CoreOutput :=
  if missing_features data = [] then
    let row := input_row ((data.lookup "psd_theta").getD (.str ""))
                         ((data.lookup "psd_beta").getD (.str ""))
                         ((data.lookup "hrv").getD (.str ""))
    match transform_or_raise p row with
    | .error e => .error e
    | .ok scaled =>
      let prediction := classify scaled
      .ok { prediction := resolve_label inverse classes prediction
            confidence := confidence_scores prediction
            input_features :=
              [("psd_theta", (data.lookup "psd_theta").getD (.str "")),
               ("psd_beta", (data.lookup "psd_beta").getD (.str "")),
               ("hrv", (data.lookup "hrv").getD (.str ""))]
            scaled_features := List.ofFn scaled }
  else
    .error (.missingFeatures (missing_features data))

/-- The full successful response body: the core output plus the
`data_source` tag. -/
structure PredictOutput where
  core : CoreOutput
  data_source : String
deriving DecidableEq

/-- The whole `predict` route (lines 103-215): lazy model load, data
source selection, then the core pipeline. -/
def predict (scaler : Option ScalerParams)
    (load_result : Except String ScalerParams)
    (inverse : Nat → Option String) (classes : List String)
    (req : Request) (firebase_latest : Option Record) :
    Except PredictError PredictOutput :=
  match get_scaler scaler load_result with
  | .error e => .error e
  | .ok p =>
    match select_data req firebase_latest with
    | .error e => .error e
    | .ok ds =>
      match predict_core p inverse classes ds.1 with
      | .error e => .error e
      | .ok out => .ok { core := out, data_source := ds.2 }

-- Concrete fixtures used by witnesses and counterexamples.

/-- A concrete scaler parameter set: zero means, unit scales. -/
def p₀ : ScalerParams := ⟨fun _ => 0, fun _ => 1⟩

/-- A record whose psd_theta value is non-numeric. -/
def bad_record : Record :=
  [("psd_theta", .str "abc"), ("psd_beta", .num (.fin 1)),
   ("hrv", .num (.fin 1))]

/-- A record with all three required features numeric. -/
def base_record : Record :=
  [("psd_theta", .num (.fin 1)), ("psd_beta", .num (.fin 1)),
   ("hrv", .num (.fin 1))]

/-- A JSON POST request with the given body. -/
def req_json (b : Option Record) : Request := ⟨.POST, true, b⟩

/-- A scaled vector with scaled[4] = -2.0 and scaled[2] = 3.0. -/
def vC3 : Fin 5 → FVal :=
  fun i => if i = 4 then .fin (-2) else if i = 2 then .fin 3 else .fin 0

/-- The all-NaN scaled vector. -/
def vNan : Fin 5 → FVal := fun _ => .nan

/-- A record supplying only psd_theta, missing psd_beta and hrv. -/
def partial_record : Record := [("psd_theta", .num (.fin 1))]

/-- The base record with one extra, unrelated key prepended. -/
def extended_record : Record := ("extra", .str "x") :: base_record

/-- Two records agree on the three required features. -/
def agree_on_features (d1 d2 : Record) : Prop :=
  d1.lookup "psd_theta" = d2.lookup "psd_theta" ∧
  d1.lookup "psd_beta" = d2.lookup "psd_beta" ∧
  d1.lookup "hrv" = d2.lookup "hrv"

/-- Claim C1 (evaluation at the failing input): with the code's selected
weight 0.4 and selected code 0, the confidence map has 4 entries, but each
non-selected label receives 0.2/3 = 1/15 — not (1-0.4)/3 = 0.2 — so the
entries sum to 3/5, not 1.0 (and 3/5 is not within any floating-point
tolerance of 1). -/
theorem C1_confidence_sum_evaluation :
    (confidence_scores 0).length = 4 ∧
    ((confidence_scores 0).map Prod.snd).sum = 3 / 5 ∧
    ((3 : ℚ) / 5 ≠ 1) ∧
    (confidence_scores 0).lookup "anxious" = some (2 / 5) ∧
    (confidence_scores 0).lookup "normal" = some (1 / 15) ∧
    ((1 : ℚ) / 15 ≠ (1 - 2 / 5) / 3) := by
  refine ⟨rfl, ?_, by norm_num, ?_, ?_, by norm_num⟩
  · simp [confidence_scores, status_labels]
    norm_num
  · simp [confidence_scores, status_labels, List.lookup]
  · simp [confidence_scores, status_labels, List.lookup]
    norm_num

/-- Claim C3: the classifier evaluates its threshold rules in the fixed
order scaled[4] < -1.0 → 2, else scaled[2] > 1.5 → 3, else
scaled[0] > 1.0 → 1, else 0, first match winning; in particular every
scaled vector with scaled[4] = -2.0 and scaled[2] = 3.0 classifies as 2
(ptsd), never 3 (stressed). -/
theorem C3_classifier_priority :
    (∀ v : Fin 5 → FVal, (v 4).flt (.fin (-1)) = true → classify v = 2) ∧
    (∀ v : Fin 5 → FVal, (v 4).flt (.fin (-1)) = false →
      (v 2).fgt (.fin (3 / 2)) = true → classify v = 3) ∧
    (∀ v : Fin 5 → FVal, (v 4).flt (.fin (-1)) = false →
      (v 2).fgt (.fin (3 / 2)) = false → (v 0).fgt (.fin 1) = true →
      classify v = 1) ∧
    (∀ v : Fin 5 → FVal, (v 4).flt (.fin (-1)) = false →
      (v 2).fgt (.fin (3 / 2)) = false → (v 0).fgt (.fin 1) = false →
      classify v = 0) ∧
    (∀ v : Fin 5 → FVal, v 4 = .fin (-2) → v 2 = .fin 3 → classify v = 2) := by
  refine ⟨?_, ?_, ?_, ?_, ?_⟩
  · intro v h4
    simp [classify, h4]
  · intro v h4 h2
    simp [classify, h4, h2]
  · intro v h4 h2 h0
    simp [classify, h4, h2, h0]
  · intro v h4 h2 h0
    simp [classify, h4, h2, h0]
  · intro v h4 h2
    have : (v 4).flt (.fin (-1)) = true := by
      rw [h4]
      simp [FVal.flt]
    simp [classify, this]

/-- Claim C3 witness: the concrete vector with scaled[4] = -2.0 and
scaled[2] = 3.0 classifies as 2. -/
theorem C3_classifier_priority_witness : classify vC3 = 2 :=
  C3_classifier_priority.2.2.2.2 vC3 rfl rfl

/-- Claim C4: the classifier is total — every scaled vector (NaN
components included) yields exactly one code in {0,1,2,3}, and when the
three used components are NaN every comparison is false and the result is
0 (normal). -/
theorem C4_classifier_total :
    ∀ v : Fin 5 → FVal,
      (classify v = 0 ∨ classify v = 1 ∨ classify v = 2 ∨ classify v = 3) ∧
      (v 0 = .nan → v 2 = .nan → v 4 = .nan → classify v = 0) := by
  intro v
  constructor
  · unfold classify
    split_ifs <;> simp
  · intro h0 h2 h4
    simp only [classify]
    rw [h0, h2, h4]
    rfl

/-- Claim C4 witness: the all-NaN vector classifies as 0. -/
theorem C4_classifier_total_witness : classify vNan = 0 :=
  (C4_classifier_total vNan).2 rfl rfl rfl

/-- Claim C5: for each code 0..3 the resolved label is given by the fixed
table (0 → anxious, 1 → normal, 2 → ptsd, 3 → stressed), for every
external label-encoder behavior — absent, raising, or mapping codes to
different names — and in particular code 3 always resolves to
"stressed". -/
theorem C5_fixed_table_authoritative :
    ∀ (inverse : Nat → Option String) (classes : List String),
      resolve_label inverse classes 0 = "anxious" ∧
      resolve_label inverse classes 1 = "normal" ∧
      resolve_label inverse classes 2 = "ptsd" ∧
      resolve_label inverse classes 3 = "stressed" :=
  fun _ _ => ⟨rfl, rfl, rfl, rfl⟩

/-- Claim C7: for every valid RawFeatures record (any numeric values,
negative, NaN or infinite alike), the built 5-element row carries
psd_theta, psd_beta, hrv verbatim at positions 0, 2, 4 and exactly 0.0 at
positions 1 and 3. -/
theorem C7_vector_builder :
    ∀ (psd_theta psd_beta hrv : FVal),
      input_row (.num psd_theta) (.num psd_beta) (.num hrv) 0
          = .num psd_theta ∧
      input_row (.num psd_theta) (.num psd_beta) (.num hrv) 1
          = .num (.fin 0) ∧
      input_row (.num psd_theta) (.num psd_beta) (.num hrv) 2
          = .num psd_beta ∧
      input_row (.num psd_theta) (.num psd_beta) (.num hrv) 3
          = .num (.fin 0) ∧
      input_row (.num psd_theta) (.num psd_beta) (.num hrv) 4
          = .num hrv :=
  fun _ _ _ => ⟨rfl, rfl, rfl, rfl, rfl⟩

/-- Codes above 3 fall outside the fixed code→name table. -/
theorem status_mapping_eq_none (n : Nat) (h : 3 < n) :
    status_mapping n = none := by
  obtain ⟨m, rfl⟩ : ∃ m, n = m + 4 := ⟨n - 4, by omega⟩
  rfl

/-- Claim C6 counterexample: at the out-of-range code 4 the resolver
returns the successful label "unknown" — not an UnknownLabelError — even
with an external decoding table present. -/
theorem C6_counterexample :
    resolve_label_result (fun _ => some "bogus") ["a", "b", "c", "d", "e"] 4
      = .ok "unknown" := rfl

/-- Claim C6 amended: the resolver never fails — every code yields a
successful label, and every code outside {0,1,2,3} yields the successful
fallback label "unknown" rather than an UnknownLabelError. -/
theorem C6_resolver_never_fails :
    ∀ (inverse : Nat → Option String) (classes : List String) (code : Nat),
      (∃ s, resolve_label_result inverse classes code = .ok s) ∧
      (3 < code → resolve_label_result inverse classes code
        = .ok "unknown") := by
  intro inverse classes code
  refine ⟨⟨resolve_label inverse classes code, rfl⟩, fun h => ?_⟩
  simp [resolve_label_result, resolve_label, status_mapping_eq_none code h]

/-- Claim C6 amended, witness: at code 7 the resolver succeeds with
"unknown". -/
theorem C6_resolver_never_fails_witness :
    resolve_label_result (fun _ => none) [] 7 = .ok "unknown" :=
  (C6_resolver_never_fails (fun _ => none) [] 7).2 (by omega)

/-- Claim C8: whenever the selected record is missing a required feature,
the route answers with the missing-features validation error of line 130,
for every scaler parameter set, label encoder and class list alike — so no
vector building, scaling or classification influences the outcome. -/
theorem C8_missing_field_validation :
    ∀ (p : ScalerParams) (load_result : Except String ScalerParams)
      (inverse : Nat → Option String) (classes : List String)
      (req : Request) (fb : Option Record) (data : Record) (src : String),
      select_data req fb = .ok (data, src) →
      missing_features data ≠ [] →
      predict (some p) load_result inverse classes req fb
        = .error (.missingFeatures (missing_features data)) := by
  intro p load_result inverse classes req fb data src hsel hmiss
  simp [predict, get_scaler, hsel, predict_core, hmiss]

/-- Claim C8 witness: a JSON POST of a record that lacks psd_beta and hrv
yields the missing-features error. -/
theorem C8_missing_field_validation_witness :
    predict (some p₀) (.error "Model files not found") (fun _ => none) []
        (req_json (some partial_record)) none
      = .error (.missingFeatures ["psd_beta", "hrv"]) :=
  C8_missing_field_validation p₀ (.error "Model files not found")
    (fun _ => none) [] (req_json (some partial_record)) none partial_record
    "request_body" rfl (by decide)

/-- Claim C9: keys other than the three required features never influence
the core result — two records that agree on psd_theta, psd_beta and hrv
produce identical predictions, confidence maps and scaled features. -/
theorem C9_extra_keys_irrelevant :
    ∀ (p : ScalerParams) (inverse : Nat → Option String)
      (classes : List String) (d1 d2 : Record),
      agree_on_features d1 d2 →
      predict_core p inverse classes d1
        = predict_core p inverse classes d2 := by
  intro p inverse classes d1 d2 h
  obtain ⟨h1, h2, h3⟩ := h
  have hm : missing_features d1 = missing_features d2 := by
    simp only [missing_features, required_features, List.filter_cons,
      List.filter_nil, h1, h2, h3]
  simp [predict_core, hm, h1, h2, h3]

/-- Claim C9 witness: prepending an unrelated key to the base record does
not change the core result. -/
theorem C9_extra_keys_irrelevant_witness :
    predict_core p₀ (fun _ => none) [] base_record
      = predict_core p₀ (fun _ => none) [] extended_record :=
  C9_extra_keys_irrelevant p₀ (fun _ => none) [] base_record extended_record
    ⟨rfl, rfl, rfl⟩

/-- Claim C10: for GET requests and for non-JSON POSTs the request body is
never consulted — the result is the same for any two bodies — and the
record is taken from the external store's 'latest' snapshot whenever that
snapshot is nonempty. -/
theorem C10_body_not_consulted :
    (∀ (scaler : Option ScalerParams)
       (load_result : Except String ScalerParams)
       (inverse : Nat → Option String) (classes : List String)
       (m : Method) (j : Bool) (b1 b2 : Option Record) (fb : Option Record),
       m = Method.GET ∨ j = false →
       predict scaler load_result inverse classes ⟨m, j, b1⟩ fb
         = predict scaler load_result inverse classes ⟨m, j, b2⟩ fb) ∧
    (∀ (m : Method) (j : Bool) (b : Option Record) (d : Record),
       m = Method.GET ∨ j = false → d.isEmpty = false →
       select_data ⟨m, j, b⟩ (some d) = .ok (d, "firebase")) := by
  constructor
  · intro scaler load_result inverse classes m j b1 b2 fb h
    have hsel : select_data ⟨m, j, b1⟩ fb = select_data ⟨m, j, b2⟩ fb := by
      dsimp only [select_data]
      rw [if_pos h, if_pos h]
    simp only [predict, hsel]
  · intro m j b d h hd
    dsimp only [select_data]
    rw [if_pos h]
    simp [hd]

/-- Claim C10 witness: a GET request gives the same answer whether or not
a body is attached, and the record is read from the store snapshot. -/
theorem C10_body_not_consulted_witness :
    (predict (some p₀) (.error "Model files not found") (fun _ => none) []
        ⟨Method.GET, true, some partial_record⟩ (some base_record)
      = predict (some p₀) (.error "Model files not found") (fun _ => none) []
        ⟨Method.GET, true, none⟩ (some base_record)) ∧
    select_data ⟨Method.GET, true, none⟩ (some base_record)
      = .ok (base_record, "firebase") :=
  ⟨C10_body_not_consulted.1 (some p₀) (.error "Model files not found")
      (fun _ => none) [] Method.GET true (some partial_record) none
      (some base_record) (Or.inl rfl),
   C10_body_not_consulted.2 Method.GET true none base_record (Or.inl rfl)
      rfl⟩

/-- Claim C2 counterexample: a JSON POST whose psd_theta value is the
string "abc" passes the feature-presence check, then the scaling step
raises and line 215's generic catch-all answers 'Prediction error: ...' —
an error outside the four-kind taxonomy. -/
theorem C2_counterexample :
    predict (some p₀) (.error "Model files not found") (fun _ => none) []
        (req_json (some bad_record)) none
      = .error (.predictionError "could not convert string to float") ∧
    error_kind (.predictionError "could not convert string to float")
      = none :=
  ⟨rfl, rfl⟩

/-- Claim C2 amended: every failure of the route is one of the four
taxonomy kinds or the generic catch-all of line 215; the catch-all never
fires when the three required features are present and numeric, but it is
reachable (non-numeric feature values reach it), so the taxonomy claim as
stated fails. -/
theorem C2_error_taxonomy_amended :
    (∀ (scaler : Option ScalerParams)
       (load_result : Except String ScalerParams)
       (inverse : Nat → Option String) (classes : List String)
       (req : Request) (fb : Option Record) (e : PredictError),
       predict scaler load_result inverse classes req fb = .error e →
       (error_kind e).isSome = true ∨ is_catch_all e = true) ∧
    (∀ (p : ScalerParams) (inverse : Nat → Option String)
       (classes : List String) (data : Record),
       (∀ f ∈ required_features, ∃ v, data.lookup f = some (.num v)) →
       ∀ msg, predict_core p inverse classes data
         ≠ .error (.predictionError msg)) ∧
    (predict (some p₀) (.error "Model files not found") (fun _ => none) []
        (req_json (some bad_record)) none
      = .error (.predictionError "could not convert string to float")) := by
  refine ⟨?_, ?_, rfl⟩
  · intro scaler load_result inverse classes req fb e _
    cases e <;> simp [error_kind, is_catch_all]
  · intro p inverse classes data hnum msg
    obtain ⟨vθ, hθ⟩ := hnum "psd_theta" (by simp [required_features])
    obtain ⟨vβ, hβ⟩ := hnum "psd_beta" (by simp [required_features])
    obtain ⟨vh, hh⟩ := hnum "hrv" (by simp [required_features])
    have hm : missing_features data = [] := by
      simp [missing_features, required_features, hθ, hβ, hh]
    have hall : all_numeric
        (input_row (.num vθ) (.num vβ) (.num vh)) = true := rfl
    simp [predict_core, hm, hθ, hβ, hh, transform_or_raise, hall]

/-- Claim C2 amended, witness: a failed model load is classified inside
the taxonomy, and the core with the all-numeric base record never reaches
the catch-all. -/
theorem C2_error_taxonomy_amended_witness :
    ((error_kind (.modelLoad "Model files not found")).isSome = true ∨
      is_catch_all (.modelLoad "Model files not found") = true) ∧
    predict_core p₀ (fun _ => none) [] base_record
      ≠ .error (.predictionError "boom") :=
  ⟨C2_error_taxonomy_amended.1 none (.error "Model files not found")
      (fun _ => none) [] (req_json none) none
      (.modelLoad "Model files not found") rfl,
   C2_error_taxonomy_amended.2.1 p₀ (fun _ => none) [] base_record
      (by intro f hf
          simp [required_features] at hf
          rcases hf with rfl | rfl | rfl
          · exact ⟨.fin 1, rfl⟩
          · exact ⟨.fin 1, rfl⟩
          · exact ⟨.fin 1, rfl⟩) "boom"⟩

end StressDetection
